import Mathlib

/-!
# CarbonCreditCalculationIOT — verification of the emission-to-credit derivation

Shallow embedding of the derivation core of the repository:

* `database/carbon_schema.sql` — the tables `Sensor`, `Emission_Data`,
  `Carbon_Credit`, `Credit_Emission_Map`, `Alert`; the stored procedures
  `calculate_carbon_credits` and `check_emission_threshold`; the trigger
  `after_emission_insert`.
* `backend/server.js` — the `authenticateToken` middleware, the
  `POST /api/emissions` handler and the `GET /api/dashboard/stats` handler.

MySQL `FLOAT` columns are modelled as `Rat`; the constants involved
(`1000`, `1.1`, `1.2`) and the sample values are exactly representable, so
the rational model agrees with the float comparisons on the inputs at issue.
Tables are lists of rows; a consistent state is a `DB`.  Text columns that no
claim mentions (alert messages, dates as strings, calibration metadata) are
omitted from the row types; dates/timestamps are abstracted as `Nat`.
The nondeterministic identifier generation (`CONCAT(... RAND() ...)`) is
modelled by passing the generated identifiers as explicit parameters.
-/

/-- `Carbon_Credit.status ENUM('earned', 'deficit', 'neutral')`. -/
inductive CreditStatus where
  | earned
  | deficit
  | neutral
  deriving DecidableEq, Repr

/-- `Alert.severity ENUM('low', 'medium', 'high', 'critical')`. -/
inductive Severity where
  | low
  | medium
  | high
  | critical
  deriving DecidableEq, Repr

/-- A row of the `Sensor` table (the columns the derivation core and the
dashboard queries read: key, `status`, owning `user_id`). -/
structure Sensor where
  sensor_id : String
  status : String
  user_id : Nat
  deriving DecidableEq, Repr

/-- A row of the `Emission_Data` table. `timestamp` is abstracted to `Nat`
(only its ordering matters); optional FLOAT columns are `Option Rat`;
`alert_id` is the nullable back-reference column. -/
structure EmissionData where
  emission_id : String
  timestamp : Nat
  co2_value : Rat
  pm25_value : Option Rat
  temperature : Option Rat
  humidity : Option Rat
  sensor_id : String
  alert_id : Option String
  deriving DecidableEq, Repr

/-- A row of the `Carbon_Credit` table (`report_id`, always NULL in the
derivation path, is omitted). -/
structure CarbonCredit where
  credit_id : String
  calculated_date : Nat
  emission_value : Rat
  allowed_limit : Rat
  credit_amount : Rat
  status : CreditStatus
  deriving DecidableEq, Repr

/-- A row of the `Credit_Emission_Map` table.  In the schema
`weight_factor FLOAT DEFAULT 1.0` and `included_flag BOOLEAN DEFAULT TRUE`;
the procedure's `INSERT` names neither column, so both take their defaults. -/
structure CreditEmissionMap where
  map_id : String
  credit_id : String
  emission_id : String
  weight_factor : Rat
  included_flag : Bool
  deriving DecidableEq, Repr

/-- A row of the `Alert` table (the free-text `alert_message` and the
`created_at` timestamp, which no claim mentions, are omitted). -/
structure Alert where
  alert_id : String
  alert_type : String
  threshold_value : Rat
  user_id : Nat
  severity : Severity
  is_read : Bool
  deriving DecidableEq, Repr

/-- The database state: one list of rows per table touched by the core. -/
structure DB where
  sensors : List Sensor
  emission_data : List EmissionData
  carbon_credits : List CarbonCredit
  credit_emission_map : List CreditEmissionMap
  alerts : List Alert
  deriving DecidableEq, Repr

/-- The fresh identifiers a single derivation consumes: the generated
`credit_id` (`CC_<date>_<rand>`) and `alert_id` (`ALERT_<date>_<rand>`). -/
structure FreshIds where
  credit_id : String
  alert_id : String
  deriving DecidableEq, Repr

/-- The status IF-chain of `calculate_carbon_credits`:
`IF p_credit_amount > 0 THEN 'earned' ELSEIF p_credit_amount < 0 THEN
'deficit' ELSE 'neutral'`. -/
def credit_status (amt : Rat) : CreditStatus :=
  if 0 < amt then CreditStatus.earned
  else if amt < 0 then CreditStatus.deficit
  else CreditStatus.neutral

/-- The severity CASE of `check_emission_threshold`:
`WHEN v > t * 1.2 THEN 'critical' WHEN v > t * 1.1 THEN 'high'
ELSE 'medium'`. -/
def alert_severity (v t : Rat) : Severity :=
  if t * 1.2 < v then Severity.critical
  else if t * 1.1 < v then Severity.high
  else Severity.medium

/-- Stored procedure `calculate_carbon_credits(p_emission_id,
p_allowed_limit, OUT p_credit_amount, OUT p_status)`:

1. `SELECT co2_value INTO v_emission_value FROM Emission_Data WHERE
   emission_id = p_emission_id` — modelled by `find?`; `none` when the
   SELECT matches no row (the variable would stay NULL and every later
   insert would fail on a NOT NULL column, so the whole call aborts).
2. `SET p_credit_amount = (p_allowed_limit - v_emission_value) / 1000`.
3. The status IF-chain (`credit_status`).
4. `INSERT INTO Carbon_Credit (credit_id, calculated_date, emission_value,
   allowed_limit, credit_amount, status)` — `v_credit_id` and `CURDATE()`
   are the parameters `v_credit_id` / `today`.
5. `INSERT INTO Credit_Emission_Map (map_id, credit_id, emission_id)
   VALUES (CONCAT('MAP_', v_credit_id), v_credit_id, p_emission_id)` —
   `weight_factor` and `included_flag` take their schema defaults. -/
def calculate_carbon_credits (db : DB) (p_emission_id : String)
    (p_allowed_limit : Rat) (v_credit_id : String) (today : Nat) :
    Option (DB × Rat × CreditStatus) :=
  match db.emission_data.find? (fun e => e.emission_id == p_emission_id) with
  | none => none
  | some e =>
    let p_credit_amount := (p_allowed_limit - e.co2_value) / 1000
    let p_status := credit_status p_credit_amount
    let credit : CarbonCredit :=
      { credit_id := v_credit_id
        calculated_date := today
        emission_value := e.co2_value
        allowed_limit := p_allowed_limit
        credit_amount := p_credit_amount
        status := p_status }
    let link : CreditEmissionMap :=
      { map_id := "MAP_" ++ v_credit_id
        credit_id := v_credit_id
        emission_id := p_emission_id
        weight_factor := 1
        included_flag := true }
    some ({ db with
            carbon_credits := db.carbon_credits ++ [credit]
            credit_emission_map := db.credit_emission_map ++ [link] },
          p_credit_amount, p_status)

/-- Stored procedure `check_emission_threshold(p_emission_id, p_threshold)`:

1. `SELECT e.co2_value, e.sensor_id, s.user_id ... FROM Emission_Data e
   JOIN Sensor s ON e.sensor_id = s.sensor_id WHERE e.emission_id =
   p_emission_id` — modelled by the two `find?` lookups; when the join
   matches no row the variables stay NULL, `NULL > p_threshold` is not
   true, and the procedure does nothing.
2. `IF v_co2_value > p_threshold THEN` insert an Alert row
   (`alert_type = 'threshold_exceeded'`, severity by `alert_severity`)
   and `UPDATE Emission_Data SET alert_id = v_alert_id WHERE emission_id
   = p_emission_id`. -/
def check_emission_threshold (db : DB) (p_emission_id : String)
    (p_threshold : Rat) (v_alert_id : String) : DB :=
  match db.emission_data.find? (fun e => e.emission_id == p_emission_id) with
  | none => db
  | some e =>
    match db.sensors.find? (fun s => s.sensor_id == e.sensor_id) with
    | none => db
    | some s =>
      if p_threshold < e.co2_value then
        let alert : Alert :=
          { alert_id := v_alert_id
            alert_type := "threshold_exceeded"
            threshold_value := p_threshold
            user_id := s.user_id
            severity := alert_severity e.co2_value p_threshold
            is_read := false }
        { db with
          alerts := db.alerts ++ [alert]
          emission_data := db.emission_data.map (fun ed =>
            if ed.emission_id == p_emission_id then
              { ed with alert_id := some v_alert_id }
            else ed) }
      else db

/-- Trigger `after_emission_insert` (AFTER INSERT ON Emission_Data), run on
a state in which the NEW row is already present:

```
DECLARE v_threshold FLOAT DEFAULT 1000;
CALL check_emission_threshold(NEW.emission_id, v_threshold);
IF NEW.co2_value <= v_threshold THEN
  CALL calculate_carbon_credits(NEW.emission_id, v_threshold, ...);
END IF;
``` -/
def after_emission_insert (db : DB) (new : EmissionData) (ids : FreshIds)
    (today : Nat) : DB :=
  let db1 := check_emission_threshold db new.emission_id 1000 ids.alert_id
  if new.co2_value ≤ 1000 then
    match calculate_carbon_credits db1 new.emission_id 1000 ids.credit_id today with
    | some (db2, _, _) => db2
    | none => db1
  else db1

/-- Insertion of a row into `Emission_Data`, as MySQL executes it: the
PRIMARY KEY on `emission_id` rejects a duplicate key (result `none`), and a
successful insert fires `after_emission_insert` on the post-insert state. -/
def insert_emission (db : DB) (new : EmissionData) (ids : FreshIds)
    (today : Nat) : Option DB :=
  if db.emission_data.any (fun e => e.emission_id == new.emission_id) then
    none
  else
    some (after_emission_insert
      { db with emission_data := db.emission_data ++ [new] } new ids today)

/-- The request body of `POST /api/emissions`:
`const { sensor_id, co2_value, pm25_value, temperature, humidity } = req.body`
— every field may be absent from the JSON body. -/
structure EmissionBody where
  sensor_id : Option String
  co2_value : Option Rat
  pm25_value : Option Rat
  temperature : Option Rat
  humidity : Option Rat
  deriving DecidableEq, Repr

/-- The `POST /api/emissions` handler (server.js): it performs no
validation of its own — it generates `emission_id`, runs the single
`INSERT INTO Emission_Data`, and answers `201`; any error thrown by the
insert is caught and answered `500` (`'Failed to record emission'`).
The branches below are the MySQL constraint checks that decide whether the
insert throws: `sensor_id` / `co2_value` NULL violate NOT NULL columns, an
unknown `sensor_id` violates the FOREIGN KEY to `Sensor`, a duplicate
`emission_id` violates the PRIMARY KEY.  The pair returned is (HTTP status,
resulting database state). -/
def post_emissions (db : DB) (body : EmissionBody) (ids : FreshIds)
    (emission_id : String) (now : Nat) : Nat × DB :=
  match body.sensor_id, body.co2_value with
  | some sid, some co2 =>
    if db.sensors.any (fun s => s.sensor_id == sid) then
      match insert_emission db
          { emission_id := emission_id
            timestamp := now
            co2_value := co2
            pm25_value := body.pm25_value
            temperature := body.temperature
            humidity := body.humidity
            sensor_id := sid
            alert_id := none } ids now with
      | some db2 => (201, db2)
      | none => (500, db)
    else (500, db)
  | _, _ => (500, db)

/-- The decoded payload of a verified JWT
(`jwt.sign({ user_id, email, role }, ...)`). -/
structure UserClaims where
  user_id : Nat
  email : String
  role : String
  deriving DecidableEq, Repr

/-- JavaScript's `String.split(sep)` for a one-character separator, on the
character list: splits at every occurrence and keeps empty fragments,
exactly as `'authHeader.split(' ')'` does in the middleware.  Written by
structural recursion so that concrete calls evaluate by reduction. -/
def splitCharAux (c : Char) : List Char → List (List Char)
  | [] => [[]]
  | x :: xs =>
    match splitCharAux c xs with
    | [] => [[x]]
    | y :: ys =>
      if x = c then [] :: y :: ys
      else (x :: y) :: ys

/-- `s.split(c)` of JavaScript, as a list of strings. -/
def jsSplit (s : String) (c : Char) : List String :=
  (splitCharAux c s.toList).map (fun l => String.mk l)

/-- The `authenticateToken` middleware (server.js):

```
const token = authHeader && authHeader.split(' ')[1];
if (!token) return res.status(401)...;
jwt.verify(token, secret, (err, user) => {
  if (err) return res.status(403)...;
  req.user = user; next(); });
```

`verify` abstracts `jwt.verify` (`none` = invalid or expired signature);
`handler` is the guarded route, returning its HTTP status.  `split(' ')[1]`
is `(jsSplit h ' ').get? 1`; JavaScript's `!token` is also true for the empty
string, hence the extra `t = ""` test. -/
def authenticateToken (verify : String → Option UserClaims)
    (authHeader : Option String) (handler : UserClaims → Nat) : Nat :=
  let token := authHeader.bind (fun h => (jsSplit h ' ').get? 1)
  match token with
  | none => 401
  | some t =>
    if t = "" then 401
    else
      match verify t with
      | none => 403
      | some u => handler u

/-- The `JOIN Sensor s ON ed.sensor_id = s.sensor_id WHERE s.user_id = ?`
restriction shared by the dashboard queries: the user's readings. -/
def userEmissions (db : DB) (uid : Nat) : List EmissionData :=
  db.emission_data.filter (fun e =>
    db.sensors.any (fun s => s.sensor_id == e.sensor_id && s.user_id == uid))

/-- `ORDER BY ed.timestamp DESC LIMIT 1`: a reading of maximal timestamp
(the first such in table order, ties being unspecified in SQL). -/
def latestEmission (l : List EmissionData) : Option EmissionData :=
  l.foldl (fun acc e =>
    match acc with
    | none => some e
    | some b => if b.timestamp < e.timestamp then some e else some b) none

/-- The `total_credits` query of `GET /api/dashboard/stats`:
`SELECT COALESCE(SUM(credit_amount), 0) FROM Carbon_Credit cc JOIN
Credit_Emission_Map cem ON cc.credit_id = cem.credit_id JOIN Emission_Data
ed ON cem.emission_id = ed.emission_id JOIN Sensor s ON ed.sensor_id =
s.sensor_id WHERE s.user_id = ?` — the sum over all join tuples. -/
def totalCredits (db : DB) (uid : Nat) : Rat :=
  (db.carbon_credits.flatMap (fun c =>
    (db.credit_emission_map.filter (fun m => m.credit_id == c.credit_id)).flatMap
      (fun m =>
        (db.emission_data.filter (fun e => e.emission_id == m.emission_id)).flatMap
          (fun e =>
            (db.sensors.filter (fun s =>
              s.sensor_id == e.sensor_id && s.user_id == uid)).map
                (fun _ => c.credit_amount))))).sum

/-- The `GET /api/dashboard/stats` handler: the four values of its JSON
answer, in order `current_emission`, `total_credits`, `active_sensors`,
`unread_alerts`.  `current_emission` is the latest reading's `co2_value`
with the JavaScript fallback `currentEmission?.co2_value || 0`. -/
def dashboard_stats (db : DB) (uid : Nat) : Rat × Rat × Nat × Nat :=
  let current : Rat :=
    match latestEmission (userEmissions db uid) with
    | some e => e.co2_value
    | none => 0
  let active :=
    (db.sensors.filter (fun s => s.user_id == uid && s.status == "active")).length
  let unread :=
    (db.alerts.filter (fun a => a.user_id == uid && a.is_read == false)).length
  (current, totalCredits db uid, active, unread)

/-- The alert the reading `eid` references, read back through its
`alert_id` column. -/
def alertRefOf (db : DB) (eid : String) : Option String :=
  (db.emission_data.find? (fun e => e.emission_id == eid)).bind
    (fun e => e.alert_id)

/-- The states reachable by the orchestrated derivation: any initial sensor
population with all derived tables empty, then any number of successful
`POST /api/emissions` inserts.  A committed insert satisfies the schema's
constraints: the sensor exists (FOREIGN KEY), the handler supplies no
`alert_id` (the column is absent from its INSERT), and the generated
`credit_id` / `alert_id` are fresh (a collision would violate the PRIMARY
KEYs of `Carbon_Credit` / `Alert` and roll the transaction back). -/
inductive Reachable : DB → Prop where
  | init (sensors : List Sensor) :
      Reachable { sensors := sensors, emission_data := [], carbon_credits := [],
                  credit_emission_map := [], alerts := [] }
  | step {db db2 : DB} (new : EmissionData) (ids : FreshIds) (today : Nat)
      (hreach : Reachable db)
      (hsens : (db.sensors.find? (fun s => s.sensor_id == new.sensor_id)).isSome = true)
      (halert : new.alert_id = none)
      (hcfresh : db.carbon_credits.countP (fun c => c.credit_id == ids.credit_id) = 0)
      (hafresh : db.alerts.countP (fun a => a.alert_id == ids.alert_id) = 0)
      (hins : insert_emission db new ids today = some db2) :
      Reachable db2

/-! ## Characterization of the procedures -/

/-- Unfolding of `check_emission_threshold` once both lookups of its SELECT
... JOIN succeed. -/
theorem check_emission_threshold_eq (db : DB) (eid : String) (t : Rat)
    (aid : String) (e : EmissionData) (s : Sensor)
    (he : db.emission_data.find? (fun x => x.emission_id == eid) = some e)
    (hs : db.sensors.find? (fun x => x.sensor_id == e.sensor_id) = some s) :
    check_emission_threshold db eid t aid =
      if t < e.co2_value then
        { db with
          alerts := db.alerts ++
            [{ alert_id := aid
               alert_type := "threshold_exceeded"
               threshold_value := t
               user_id := s.user_id
               severity := alert_severity e.co2_value t
               is_read := false }]
          emission_data := db.emission_data.map (fun ed =>
            if ed.emission_id == eid then { ed with alert_id := some aid }
            else ed) }
      else db := by
  unfold check_emission_threshold
  rw [he]
  dsimp only
  rw [hs]

/-- Unfolding of `calculate_carbon_credits` once the SELECT of the emission
row succeeds. -/
theorem calculate_carbon_credits_eq (db : DB) (eid : String) (lim : Rat)
    (cid : String) (today : Nat) (e : EmissionData)
    (he : db.emission_data.find? (fun x => x.emission_id == eid) = some e) :
    calculate_carbon_credits db eid lim cid today =
      some ({ db with
              carbon_credits := db.carbon_credits ++
                [{ credit_id := cid
                   calculated_date := today
                   emission_value := e.co2_value
                   allowed_limit := lim
                   credit_amount := (lim - e.co2_value) / 1000
                   status := credit_status ((lim - e.co2_value) / 1000) }]
              credit_emission_map := db.credit_emission_map ++
                [{ map_id := "MAP_" ++ cid
                   credit_id := cid
                   emission_id := eid
                   weight_factor := 1
                   included_flag := true }] },
            (lim - e.co2_value) / 1000,
            credit_status ((lim - e.co2_value) / 1000)) := by
  unfold calculate_carbon_credits
  rw [he]

/-- In a list with no row keyed `eid`, after appending `new` keyed `eid`,
the keyed lookup finds `new`. -/
theorem find?_append_new (l : List EmissionData) (new : EmissionData)
    (h : l.any (fun e => e.emission_id == new.emission_id) = false) :
    (l ++ [new]).find? (fun e => e.emission_id == new.emission_id) =
      some new := by
  rw [List.find?_append]
  have hnone : l.find? (fun e => e.emission_id == new.emission_id) = none := by
    rw [List.find?_eq_none]
    intro x hx hpx
    have hany : l.any (fun e => e.emission_id == new.emission_id) = true :=
      List.any_eq_true.mpr ⟨x, hx, hpx⟩
    rw [h] at hany
    exact Bool.false_ne_true hany
  rw [hnone]
  simp

/-- Full case analysis of a successful `Emission_Data` insert: the trigger
either derives a Credit plus Link (compliant reading) or an Alert plus the
back-reference update (breaching reading). -/
theorem insert_emission_cases (db : DB) (new : EmissionData) (ids : FreshIds)
    (today : Nat) (db2 : DB) (s : Sensor)
    (hs : db.sensors.find? (fun x => x.sensor_id == new.sensor_id) = some s)
    (hins : insert_emission db new ids today = some db2) :
    db.emission_data.any (fun e => e.emission_id == new.emission_id) = false ∧
    ((new.co2_value ≤ 1000 ∧
      db2 = { db with
        emission_data := db.emission_data ++ [new]
        carbon_credits := db.carbon_credits ++
          [{ credit_id := ids.credit_id
             calculated_date := today
             emission_value := new.co2_value
             allowed_limit := 1000
             credit_amount := (1000 - new.co2_value) / 1000
             status := credit_status ((1000 - new.co2_value) / 1000) }]
        credit_emission_map := db.credit_emission_map ++
          [{ map_id := "MAP_" ++ ids.credit_id
             credit_id := ids.credit_id
             emission_id := new.emission_id
             weight_factor := 1
             included_flag := true }] }) ∨
    (1000 < new.co2_value ∧
      db2 = { db with
        emission_data := (db.emission_data ++ [new]).map (fun ed =>
          if ed.emission_id == new.emission_id then
            { ed with alert_id := some ids.alert_id }
          else ed)
        alerts := db.alerts ++
          [{ alert_id := ids.alert_id
             alert_type := "threshold_exceeded"
             threshold_value := 1000
             user_id := s.user_id
             severity := alert_severity new.co2_value 1000
             is_read := false }] })) := by
  unfold insert_emission at hins
  split at hins
  · exact absurd hins (by simp)
  · rename_i hdup
    have hguard : db.emission_data.any
        (fun e => e.emission_id == new.emission_id) = false := by
      revert hdup
      cases db.emission_data.any (fun e => e.emission_id == new.emission_id) <;>
        simp
    refine ⟨hguard, ?_⟩
    set db0 : DB := { db with emission_data := db.emission_data ++ [new] } with hdb0
    have hfind0 : db0.emission_data.find?
        (fun e => e.emission_id == new.emission_id) = some new :=
      find?_append_new db.emission_data new hguard
    have hs0 : db0.sensors.find? (fun x => x.sensor_id == new.sensor_id) = some s := hs
    unfold after_emission_insert at hins
    rw [check_emission_threshold_eq db0 new.emission_id 1000 ids.alert_id new s
      hfind0 hs0] at hins
    by_cases hco2 : new.co2_value ≤ 1000
    · left
      refine ⟨hco2, ?_⟩
      rw [if_neg (not_lt.mpr hco2), if_pos hco2,
        calculate_carbon_credits_eq db0 new.emission_id 1000 ids.credit_id today
          new hfind0] at hins
      exact (Option.some.injEq _ _ ▸ hins).symm
    · right
      have hlt : 1000 < new.co2_value := lt_of_not_le hco2
      refine ⟨hlt, ?_⟩
      rw [if_pos hlt, if_neg hco2] at hins
      exact (Option.some.injEq _ _ ▸ hins).symm

/-! ## Invariants of the reachable states -/

/-- The status IF-chain never answers `'deficit'` on a nonnegative amount. -/
theorem credit_status_ne_deficit (amt : Rat) (h : 0 ≤ amt) :
    credit_status amt ≠ CreditStatus.deficit := by
  unfold credit_status
  split
  · exact fun hc => CreditStatus.noConfusion hc
  · rw [if_neg (not_lt.mpr h)]
    exact fun hc => CreditStatus.noConfusion hc

/-- The derivation invariants maintained by every committed insert. -/
structure DBInv (db : DB) : Prop where
  link_count : ∀ c ∈ db.carbon_credits,
    db.credit_emission_map.countP (fun m => m.credit_id == c.credit_id) = 1
  link_credit : ∀ m ∈ db.credit_emission_map,
    ∃ c ∈ db.carbon_credits, c.credit_id = m.credit_id
  link_emission : ∀ m ∈ db.credit_emission_map,
    ∃ e ∈ db.emission_data, e.emission_id = m.emission_id
  link_defaults : ∀ m ∈ db.credit_emission_map,
    m.weight_factor = 1 ∧ m.included_flag = true
  emission_link_count : ∀ eid : String,
    db.credit_emission_map.countP (fun m => m.emission_id == eid) ≤ 1
  emission_key : ∀ eid : String,
    db.emission_data.countP (fun e => e.emission_id == eid) ≤ 1
  credit_key : ∀ cid : String,
    db.carbon_credits.countP (fun c => c.credit_id == cid) ≤ 1
  alert_key : ∀ aid : String,
    db.alerts.countP (fun a => a.alert_id == aid) ≤ 1
  alert_ref : ∀ e ∈ db.emission_data, ∀ aid, e.alert_id = some aid →
    ∃ a ∈ db.alerts, a.alert_id = aid
  alert_owner : ∀ a ∈ db.alerts, ∃ s ∈ db.sensors, s.user_id = a.user_id
  credit_sign : ∀ c ∈ db.carbon_credits,
    0 ≤ c.credit_amount ∧ c.status ≠ CreditStatus.deficit

/-- Every reachable state satisfies the derivation invariants. -/
theorem reachable_inv {db : DB} (h : Reachable db) : DBInv db := by
  induction h with
  | init sensors =>
    exact { link_count := by simp
            link_credit := by simp
            link_emission := by simp
            link_defaults := by simp
            emission_link_count := by simp
            emission_key := by simp
            credit_key := by simp
            alert_key := by simp
            alert_ref := by simp
            alert_owner := by simp
            credit_sign := by simp }
  | step new ids today hreach hsens halert hcfresh hafresh hins ih =>
    rename_i db db2
    obtain ⟨s, hs⟩ := Option.isSome_iff_exists.mp hsens
    obtain ⟨hguard, hcase⟩ :=
      insert_emission_cases db new ids today db2 s hs hins
    have hold_map_eid : ∀ m ∈ db.credit_emission_map,
        m.emission_id ≠ new.emission_id := by
      intro m hm hcontra
      obtain ⟨e, he, heid⟩ := ih.link_emission m hm
      have hfe := List.any_eq_false.mp hguard e he
      simp only [beq_iff_eq] at hfe
      exact hfe (heid.trans hcontra)
    have hold_data_eid : ∀ e ∈ db.emission_data,
        e.emission_id ≠ new.emission_id := by
      intro e he
      have hfe := List.any_eq_false.mp hguard e he
      simpa using hfe
    rcases hcase with ⟨hco2, rfl⟩ | ⟨hco2, rfl⟩
    · -- compliant reading: Credit + Link appended, alerts untouched
      have hold_credit_id : ∀ c ∈ db.carbon_credits,
          c.credit_id ≠ ids.credit_id := by
        intro c hc
        have h0 := List.countP_eq_zero.mp hcfresh c hc
        simpa using h0
      refine
        { link_count := ?_, link_credit := ?_, link_emission := ?_
          link_defaults := ?_, emission_link_count := ?_, emission_key := ?_
          credit_key := ?_, alert_key := ?_, alert_ref := ?_
          alert_owner := ?_, credit_sign := ?_ }
      · intro c hc
        rw [List.mem_append] at hc
        rcases hc with hc | hc
        · have h1 := ih.link_count c hc
          have hne : (ids.credit_id == c.credit_id) = false :=
            beq_eq_false_iff_ne.mpr (fun h => hold_credit_id c hc h.symm)
          simp [List.countP_append, List.countP_cons, hne, h1]
        · rw [List.mem_singleton] at hc
          subst hc
          have hmz : db.credit_emission_map.countP
              (fun m => m.credit_id == ids.credit_id) = 0 := by
            rw [List.countP_eq_zero]
            intro m hm hpm
            obtain ⟨c', hc', hcid⟩ := ih.link_credit m hm
            simp only [beq_iff_eq] at hpm
            exact hold_credit_id c' hc' (hcid.trans hpm)
          simp [List.countP_append, List.countP_cons, hmz]
      · intro m hm
        rw [List.mem_append] at hm
        rcases hm with hm | hm
        · obtain ⟨c, hc, hcid⟩ := ih.link_credit m hm
          exact ⟨c, List.mem_append_left _ hc, hcid⟩
        · rw [List.mem_singleton] at hm
          subst hm
          exact ⟨_, List.mem_append_right _ (List.mem_singleton.mpr rfl), rfl⟩
      · intro m hm
        rw [List.mem_append] at hm
        rcases hm with hm | hm
        · obtain ⟨e, he, heid⟩ := ih.link_emission m hm
          exact ⟨e, List.mem_append_left _ he, heid⟩
        · rw [List.mem_singleton] at hm
          subst hm
          exact ⟨new, List.mem_append_right _ (List.mem_singleton.mpr rfl), rfl⟩
      · intro m hm
        rw [List.mem_append] at hm
        rcases hm with hm | hm
        · exact ih.link_defaults m hm
        · rw [List.mem_singleton] at hm
          subst hm
          exact ⟨rfl, rfl⟩
      · intro eid
        by_cases heq : new.emission_id = eid
        · subst heq
          have hz : db.credit_emission_map.countP
              (fun m => m.emission_id == new.emission_id) = 0 := by
            rw [List.countP_eq_zero]
            intro m hm hpm
            simp only [beq_iff_eq] at hpm
            exact hold_map_eid m hm hpm
          simp [List.countP_append, List.countP_cons, hz]
        · have hne : (new.emission_id == eid) = false :=
            beq_eq_false_iff_ne.mpr heq
          have h1 := ih.emission_link_count eid
          simp only [List.countP_append, List.countP_cons, List.countP_nil, hne,
            Bool.false_eq_true, if_false]
          omega
      · intro eid
        by_cases heq : new.emission_id = eid
        · subst heq
          have hz : db.emission_data.countP
              (fun e => e.emission_id == new.emission_id) = 0 := by
            rw [List.countP_eq_zero]
            intro e he hpe
            simp only [beq_iff_eq] at hpe
            exact hold_data_eid e he hpe
          simp [List.countP_append, List.countP_cons, hz]
        · have hne : (new.emission_id == eid) = false :=
            beq_eq_false_iff_ne.mpr heq
          have h1 := ih.emission_key eid
          simp only [List.countP_append, List.countP_cons, List.countP_nil, hne,
            Bool.false_eq_true, if_false]
          omega
      · intro cid
        by_cases heq : ids.credit_id = cid
        · subst heq
          simp [List.countP_append, List.countP_cons, hcfresh]
        · have hne : (ids.credit_id == cid) = false :=
            beq_eq_false_iff_ne.mpr heq
          have h1 := ih.credit_key cid
          simp only [List.countP_append, List.countP_cons, List.countP_nil, hne,
            Bool.false_eq_true, if_false]
          omega
      · exact ih.alert_key
      · intro e he aid haid
        rw [List.mem_append] at he
        rcases he with he | he
        · exact ih.alert_ref e he aid haid
        · rw [List.mem_singleton] at he
          subst he
          rw [halert] at haid
          exact absurd haid (by simp)
      · exact ih.alert_owner
      · intro c hc
        rw [List.mem_append] at hc
        rcases hc with hc | hc
        · exact ih.credit_sign c hc
        · rw [List.mem_singleton] at hc
          subst hc
          have hnn : (0 : Rat) ≤ (1000 - new.co2_value) / 1000 := by
            apply div_nonneg
            · linarith
            · norm_num
          exact ⟨hnn, credit_status_ne_deficit _ hnn⟩
    · -- breaching reading: Alert appended, back-reference set, credits untouched
      have hupd_id : ∀ ed : EmissionData,
          (if ed.emission_id == new.emission_id then
            { ed with alert_id := some ids.alert_id } else ed).emission_id =
          ed.emission_id := by
        intro ed
        split <;> rfl
      refine
        { link_count := ?_, link_credit := ?_, link_emission := ?_
          link_defaults := ?_, emission_link_count := ?_, emission_key := ?_
          credit_key := ?_, alert_key := ?_, alert_ref := ?_
          alert_owner := ?_, credit_sign := ?_ }
      · exact ih.link_count
      · exact ih.link_credit
      · intro m hm
        obtain ⟨e, he, heid⟩ := ih.link_emission m hm
        refine ⟨_, List.mem_map_of_mem _ (List.mem_append_left _ he), ?_⟩
        rw [hupd_id]
        exact heid
      · exact ih.link_defaults
      · exact ih.emission_link_count
      · intro eid
        rw [List.countP_map]
        have hcongr : (db.emission_data ++ [new]).countP
            ((fun e => e.emission_id == eid) ∘ (fun ed =>
              if ed.emission_id == new.emission_id then
                { ed with alert_id := some ids.alert_id } else ed)) =
            (db.emission_data ++ [new]).countP (fun e => e.emission_id == eid) := by
          apply List.countP_congr
          intro x hx
          simp only [Function.comp_apply, hupd_id]
        rw [hcongr]
        by_cases heq : new.emission_id = eid
        · subst heq
          have hz : db.emission_data.countP
              (fun e => e.emission_id == new.emission_id) = 0 := by
            rw [List.countP_eq_zero]
            intro e he hpe
            simp only [beq_iff_eq] at hpe
            exact hold_data_eid e he hpe
          simp [List.countP_append, List.countP_cons, hz]
        · have hne : (new.emission_id == eid) = false :=
            beq_eq_false_iff_ne.mpr heq
          have h1 := ih.emission_key eid
          simp only [List.countP_append, List.countP_cons, List.countP_nil, hne,
            Bool.false_eq_true, if_false]
          omega
      · exact ih.credit_key
      · intro aid
        by_cases heq : ids.alert_id = aid
        · subst heq
          simp [List.countP_append, List.countP_cons, hafresh]
        · have hne : (ids.alert_id == aid) = false :=
            beq_eq_false_iff_ne.mpr heq
          have h1 := ih.alert_key aid
          simp only [List.countP_append, List.countP_cons, List.countP_nil, hne,
            Bool.false_eq_true, if_false]
          omega
      · intro e2 he2 aid haid
        rw [List.mem_map] at he2
        obtain ⟨e0, he0, rfl⟩ := he2
        rw [List.mem_append] at he0
        rcases he0 with he0 | he0
        · have hne : (e0.emission_id == new.emission_id) = false :=
            beq_eq_false_iff_ne.mpr (hold_data_eid e0 he0)
          rw [hne] at haid
          simp only [Bool.false_eq_true, if_false] at haid
          obtain ⟨a, ha, haeq⟩ := ih.alert_ref e0 he0 aid haid
          exact ⟨a, List.mem_append_left _ ha, haeq⟩
        · rw [List.mem_singleton] at he0
          subst he0
          rw [beq_self_eq_true] at haid
          simp only [if_true] at haid
          have : ids.alert_id = aid := by
            simpa using haid
          subst this
          exact ⟨_, List.mem_append_right _ (List.mem_singleton.mpr rfl), rfl⟩
      · intro a ha
        rw [List.mem_append] at ha
        rcases ha with ha | ha
        · exact ih.alert_owner a ha
        · rw [List.mem_singleton] at ha
          subst ha
          exact ⟨s, List.mem_of_find?_eq_some hs, rfl⟩
      · exact ih.credit_sign

/-! ## Status and severity case lemmas -/

theorem credit_status_earned_iff (amt : Rat) :
    credit_status amt = CreditStatus.earned ↔ 0 < amt := by
  unfold credit_status
  split
  · rename_i h
    exact ⟨fun _ => h, fun _ => rfl⟩
  · rename_i h
    split
    · exact ⟨fun hc => CreditStatus.noConfusion hc, fun h0 => absurd h0 h⟩
    · exact ⟨fun hc => CreditStatus.noConfusion hc, fun h0 => absurd h0 h⟩

theorem credit_status_deficit_iff (amt : Rat) :
    credit_status amt = CreditStatus.deficit ↔ amt < 0 := by
  unfold credit_status
  split
  · rename_i h
    exact ⟨fun hc => CreditStatus.noConfusion hc, fun hlt => absurd hlt (lt_asymm h)⟩
  · rename_i h
    split
    · rename_i h2
      exact ⟨fun _ => h2, fun _ => rfl⟩
    · rename_i h2
      exact ⟨fun hc => CreditStatus.noConfusion hc, fun hlt => absurd hlt h2⟩

theorem credit_status_neutral_iff (amt : Rat) :
    credit_status amt = CreditStatus.neutral ↔ amt = 0 := by
  unfold credit_status
  split
  · rename_i h
    exact ⟨fun hc => CreditStatus.noConfusion hc,
           fun heq => absurd (heq ▸ h) (lt_irrefl 0)⟩
  · rename_i h
    split
    · rename_i h2
      exact ⟨fun hc => CreditStatus.noConfusion hc,
             fun heq => absurd (heq ▸ h2) (lt_irrefl 0)⟩
    · rename_i h2
      exact ⟨fun _ => le_antisymm (not_lt.mp h) (not_lt.mp h2), fun _ => rfl⟩

theorem alert_severity_critical (v t : Rat) (h : t * 1.2 < v) :
    alert_severity v t = Severity.critical := by
  unfold alert_severity
  rw [if_pos h]

theorem alert_severity_high (v t : Rat) (h1 : t * 1.1 < v) (h2 : v ≤ t * 1.2) :
    alert_severity v t = Severity.high := by
  unfold alert_severity
  rw [if_neg (not_lt.mpr h2), if_pos h1]

theorem alert_severity_medium (v t : Rat) (h0 : t < v) (h1 : v ≤ t * 1.1) :
    alert_severity v t = Severity.medium := by
  unfold alert_severity
  have h2 : v ≤ t * 1.2 := by nlinarith
  rw [if_neg (not_lt.mpr h2), if_neg (not_lt.mpr h1)]

/-! ## The claims -/

/-- C1: for every emission value `e.co2_value` and allowed limit `lim`,
`calculate_carbon_credits` computes `credit_amount = (lim - e.co2_value) /
1000`, assigns status `earned` iff the amount is positive, `deficit` iff
negative, `neutral` iff zero, and the persisted `Carbon_Credit` row records
exactly these values, with `e.co2_value` as `emission_value` and `lim` as
`allowed_limit`. -/
theorem claim_C1_credit_calculation (db : DB) (eid : String) (lim : Rat)
    (cid : String) (today : Nat) (e : EmissionData)
    (hfind : db.emission_data.find? (fun x => x.emission_id == eid) = some e) :
    ∃ db2, calculate_carbon_credits db eid lim cid today =
        some (db2, (lim - e.co2_value) / 1000,
              credit_status ((lim - e.co2_value) / 1000)) ∧
      (credit_status ((lim - e.co2_value) / 1000) = CreditStatus.earned ↔
        0 < (lim - e.co2_value) / 1000) ∧
      (credit_status ((lim - e.co2_value) / 1000) = CreditStatus.deficit ↔
        (lim - e.co2_value) / 1000 < 0) ∧
      (credit_status ((lim - e.co2_value) / 1000) = CreditStatus.neutral ↔
        (lim - e.co2_value) / 1000 = 0) ∧
      db2.carbon_credits = db.carbon_credits ++
        [{ credit_id := cid
           calculated_date := today
           emission_value := e.co2_value
           allowed_limit := lim
           credit_amount := (lim - e.co2_value) / 1000
           status := credit_status ((lim - e.co2_value) / 1000) }] :=
  ⟨_, calculate_carbon_credits_eq db eid lim cid today e hfind,
    credit_status_earned_iff _, credit_status_deficit_iff _,
    credit_status_neutral_iff _, rfl⟩

/-- C2: `check_emission_threshold` creates no alert when the reading's value
is at most the threshold; when it strictly exceeds it, exactly one alert is
created, with severity `critical` above `t * 1.2`, `high` in
`(t * 1.1, t * 1.2]`, and `medium` in `(t, t * 1.1]` — all boundaries
strict `>`, so equality falls into the lower band. -/
theorem claim_C2_alert_classification (db : DB) (eid : String) (t : Rat)
    (aid : String) (e : EmissionData) (s : Sensor)
    (he : db.emission_data.find? (fun x => x.emission_id == eid) = some e)
    (hs : db.sensors.find? (fun x => x.sensor_id == e.sensor_id) = some s) :
    (e.co2_value ≤ t → check_emission_threshold db eid t aid = db) ∧
    (t < e.co2_value → ∃ a : Alert,
      (check_emission_threshold db eid t aid).alerts = db.alerts ++ [a] ∧
      (t * 1.2 < e.co2_value → a.severity = Severity.critical) ∧
      (t * 1.1 < e.co2_value → e.co2_value ≤ t * 1.2 →
        a.severity = Severity.high) ∧
      (e.co2_value ≤ t * 1.1 → a.severity = Severity.medium)) := by
  rw [check_emission_threshold_eq db eid t aid e s he hs]
  constructor
  · intro h
    rw [if_neg (not_lt.mpr h)]
  · intro h
    rw [if_pos h]
    refine ⟨_, rfl, ?_, ?_, ?_⟩
    · intro h12
      exact alert_severity_critical _ _ h12
    · intro h11 h12
      exact alert_severity_high _ _ h11 h12
    · intro h11
      exact alert_severity_medium _ _ h h11

/-- C6: when the threshold check signals an alert, it sets the triggering
Reading's `alert_id` to the new alert's identifier and modifies no other
field of any Reading (every row is mapped to itself except the matching
row, which changes only in `alert_id`); when no alert is signalled the
whole state — the Reading included — is left unchanged. -/
theorem claim_C6_alert_reference_frame (db : DB) (eid : String) (t : Rat)
    (aid : String) (e : EmissionData) (s : Sensor)
    (he : db.emission_data.find? (fun x => x.emission_id == eid) = some e)
    (hs : db.sensors.find? (fun x => x.sensor_id == e.sensor_id) = some s) :
    (e.co2_value ≤ t → check_emission_threshold db eid t aid = db) ∧
    (t < e.co2_value →
      (check_emission_threshold db eid t aid).emission_data =
        db.emission_data.map (fun ed =>
          if ed.emission_id == eid then { ed with alert_id := some aid }
          else ed) ∧
      (check_emission_threshold db eid t aid).sensors = db.sensors ∧
      (check_emission_threshold db eid t aid).carbon_credits =
        db.carbon_credits ∧
      (check_emission_threshold db eid t aid).credit_emission_map =
        db.credit_emission_map) := by
  rw [check_emission_threshold_eq db eid t aid e s he hs]
  constructor
  · intro h
    rw [if_neg (not_lt.mpr h)]
  · intro h
    rw [if_pos h]
    exact ⟨rfl, rfl, rfl, rfl⟩

/-- C3: a successful insert into `Emission_Data` derives, through the
trigger with its fixed threshold 1000, exactly one of a Credit (iff
`co2_value ≤ 1000`, alerts untouched) or an Alert (iff `1000 <
co2_value`, credits untouched). -/
theorem claim_C3_trigger_derivation (db : DB) (new : EmissionData)
    (ids : FreshIds) (today : Nat) (db2 : DB) (s : Sensor)
    (hs : db.sensors.find? (fun x => x.sensor_id == new.sensor_id) = some s)
    (hins : insert_emission db new ids today = some db2) :
    (new.co2_value ≤ 1000 →
      (∃ c, db2.carbon_credits = db.carbon_credits ++ [c]) ∧
      db2.alerts = db.alerts) ∧
    (1000 < new.co2_value →
      db2.carbon_credits = db.carbon_credits ∧
      ∃ a, db2.alerts = db.alerts ++ [a]) := by
  obtain ⟨hguard, hcase⟩ := insert_emission_cases db new ids today db2 s hs hins
  rcases hcase with ⟨hco2, rfl⟩ | ⟨hco2, rfl⟩
  · exact ⟨fun _ => ⟨⟨_, rfl⟩, rfl⟩, fun hgt => absurd hgt (not_lt.mpr hco2)⟩
  · exact ⟨fun hle => absurd hco2 (not_lt.mpr hle), fun _ => ⟨rfl, _, rfl⟩⟩

/-- C4: in every reachable state, every Credit has exactly one
`Credit_Emission_Map` row referencing it, and every Link row carries
`weight_factor = 1.0`, `included_flag = TRUE` and references an existing
Reading. -/
theorem claim_C4_link_invariant {db : DB} (h : Reachable db) :
    ∀ c ∈ db.carbon_credits,
      db.credit_emission_map.countP (fun m => m.credit_id == c.credit_id) = 1 ∧
      ∀ m ∈ db.credit_emission_map, m.credit_id = c.credit_id →
        m.weight_factor = 1 ∧ m.included_flag = true ∧
        ∃ e ∈ db.emission_data, e.emission_id = m.emission_id := by
  intro c hc
  have inv := reachable_inv h
  refine ⟨inv.link_count c hc, ?_⟩
  intro m hm _
  obtain ⟨hw, hf⟩ := inv.link_defaults m hm
  obtain ⟨e, he, heid⟩ := inv.link_emission m hm
  exact ⟨hw, hf, e, he, heid⟩

/-- C5: in every reachable state, re-submitting an already present reading
identifier is rejected by the primary key (`insert_emission` answers
`none`, so the trigger does not fire again), and the identifier has at most
one linked Credit and at most one Alert matching its alert reference. -/
theorem claim_C5_idempotence {db : DB} (h : Reachable db)
    (new : EmissionData) (ids : FreshIds) (today : Nat)
    (hdup : db.emission_data.any
      (fun e => e.emission_id == new.emission_id) = true) :
    insert_emission db new ids today = none ∧
    db.credit_emission_map.countP
      (fun m => m.emission_id == new.emission_id) ≤ 1 ∧
    db.alerts.countP
      (fun a => alertRefOf db new.emission_id == some a.alert_id) ≤ 1 := by
  have inv := reachable_inv h
  refine ⟨?_, inv.emission_link_count new.emission_id, ?_⟩
  · unfold insert_emission
    rw [hdup]
    rfl
  · cases href : alertRefOf db new.emission_id with
    | none =>
      have hz : db.alerts.countP
          (fun a => (none : Option String) == some a.alert_id) = 0 := by
        rw [List.countP_eq_zero]
        intro a ha hc
        have hfalse : (false : Bool) = true := hc
        exact Bool.false_ne_true hfalse
      omega
    | some aid =>
      have hcg : db.alerts.countP
          (fun a => (some aid : Option String) == some a.alert_id) =
          db.alerts.countP (fun a => a.alert_id == aid) := by
        apply List.countP_congr
        intro a ha
        rw [Option.some_beq_some]
        simp only [beq_iff_eq]
        exact eq_comm
      rw [hcg]
      exact inv.alert_key aid

/-- C10: every Credit in a reachable state — all are created through the
trigger path, which runs the calculator only when `co2_value ≤ 1000` with
that same 1000 as the allowed limit — has a nonnegative `credit_amount`
and a status in earned/neutral; `deficit` is unreachable. -/
theorem claim_C10_no_deficit {db : DB} (h : Reachable db) :
    ∀ c ∈ db.carbon_credits, 0 ≤ c.credit_amount ∧
      (c.status = CreditStatus.earned ∨ c.status = CreditStatus.neutral) := by
  intro c hc
  obtain ⟨h1, h2⟩ := (reachable_inv h).credit_sign c hc
  refine ⟨h1, ?_⟩
  cases hst : c.status with
  | earned => exact Or.inl rfl
  | deficit => exact absurd hst h2
  | neutral => exact Or.inr rfl

/-- C9: the authentication middleware answers 401 when the Authorization
header carries no bearer token, 403 when the token does not verify, and
invokes the guarded handler exactly when the token verifies; every request
falls into one of these three outcomes. -/
theorem claim_C9_authentication (verify : String → Option UserClaims)
    (authHeader : Option String) (handler : UserClaims → Nat) :
    (authHeader.bind (fun h => (jsSplit h ' ').get? 1) = none →
      authenticateToken verify authHeader handler = 401) ∧
    (∀ t, authHeader.bind (fun h => (jsSplit h ' ').get? 1) = some t →
      t ≠ "" → verify t = none →
      authenticateToken verify authHeader handler = 403) ∧
    (∀ t u, authHeader.bind (fun h => (jsSplit h ' ').get? 1) = some t →
      t ≠ "" → verify t = some u →
      authenticateToken verify authHeader handler = handler u) ∧
    (authenticateToken verify authHeader handler = 401 ∨
     authenticateToken verify authHeader handler = 403 ∨
     ∃ t u, authHeader.bind (fun h => (jsSplit h ' ').get? 1) = some t ∧
       verify t = some u ∧
       authenticateToken verify authHeader handler = handler u) := by
  refine ⟨?_, ?_, ?_, ?_⟩
  · intro h
    unfold authenticateToken
    rw [h]
  · intro t h ht hv
    unfold authenticateToken
    rw [h]
    simp only [if_neg ht]
    rw [hv]
  · intro t u h ht hv
    unfold authenticateToken
    rw [h]
    simp only [if_neg ht]
    rw [hv]
  · cases htok : authHeader.bind (fun h => (jsSplit h ' ').get? 1) with
    | none =>
      left
      unfold authenticateToken
      rw [htok]
    | some t =>
      by_cases ht : t = ""
      · left
        unfold authenticateToken
        rw [htok]
        simp only [if_pos ht]
      · cases hv : verify t with
        | none =>
          right; left
          unfold authenticateToken
          rw [htok]
          simp only [if_neg ht]
          rw [hv]
        | some u =>
          right; right
          refine ⟨t, u, rfl, hv, ?_⟩
          unfold authenticateToken
          rw [htok]
          simp only [if_neg ht]
          rw [hv]

/-! ## The ingestion endpoint (C7) -/

def demoSensorRow : Sensor :=
  { sensor_id := "SENSOR_001", status := "active", user_id := 1 }

/-- A state holding only the demo sensor. -/
def dbSensorsOnly : DB :=
  { sensors := [demoSensorRow], emission_data := [], carbon_credits := [],
    credit_emission_map := [], alerts := [] }

/-- A payload naming a sensor the `Sensor` table does not contain. -/
def unknownSensorBody : EmissionBody :=
  { sensor_id := some "SENSOR_999", co2_value := some 500,
    pm25_value := none, temperature := none, humidity := none }

/-- C7 counterexample: a payload with an unknown sensor identifier is
answered with HTTP 500 by the catch-all of `POST /api/emissions`, not with
a 400 ValidationError as claimed — the handler performs no validation. -/
theorem claim_C7_counterexample :
    (post_emissions dbSensorsOnly unknownSensorBody
      { credit_id := "CC_1", alert_id := "AL_1" } "EM_X" 3).1 = 500 ∧
    ¬ (post_emissions dbSensorsOnly unknownSensorBody
      { credit_id := "CC_1", alert_id := "AL_1" } "EM_X" 3).1 = 400 := by
  constructor
  · rfl
  · intro h
    exact absurd h (by decide)

/-- C7 amended: a payload whose sensor identifier is missing or unknown, or
whose `co2_value` is missing, is rejected — but with HTTP 500 from the
handler's catch-all over the database constraint violation, not with a 400
ValidationError; payloads passing these checks (with a fresh reading
identifier) are accepted with 201 and persisted. -/
theorem claim_C7_ingestion_amended (db : DB) (body : EmissionBody)
    (ids : FreshIds) (eid : String) (now : Nat) :
    ((body.sensor_id = none ∨ body.co2_value = none) →
      post_emissions db body ids eid now = (500, db)) ∧
    (∀ sid, body.sensor_id = some sid →
      db.sensors.any (fun s => s.sensor_id == sid) = false →
      post_emissions db body ids eid now = (500, db)) ∧
    (∀ sid co2, body.sensor_id = some sid → body.co2_value = some co2 →
      db.sensors.any (fun s => s.sensor_id == sid) = true →
      db.emission_data.any (fun e => e.emission_id == eid) = false →
      ∃ db2, post_emissions db body ids eid now = (201, db2) ∧
        ∃ e2 ∈ db2.emission_data, e2.emission_id = eid ∧
          e2.co2_value = co2 ∧ e2.sensor_id = sid) := by
  refine ⟨?_, ?_, ?_⟩
  · intro hmiss
    unfold post_emissions
    rcases hmiss with hmiss | hmiss
    · rw [hmiss]
    · rw [hmiss]
      cases body.sensor_id <;> rfl
  · intro sid hsid hunknown
    unfold post_emissions
    rw [hsid]
    cases hco : body.co2_value with
    | none => rfl
    | some co2 =>
      dsimp only
      rw [hunknown]
      rfl
  · intro sid co2 hsid hco2 hknown hfresh
    unfold post_emissions
    rw [hsid, hco2]
    dsimp only
    rw [if_pos hknown]
    set new : EmissionData :=
      { emission_id := eid, timestamp := now, co2_value := co2
        pm25_value := body.pm25_value, temperature := body.temperature
        humidity := body.humidity, sensor_id := sid, alert_id := none } with hnew
    have hfresh2 : db.emission_data.any
        (fun e => e.emission_id == new.emission_id) = false := hfresh
    cases hins : insert_emission db new ids now with
    | none =>
      unfold insert_emission at hins
      rw [hfresh2] at hins
      have hins2 : some (after_emission_insert
          { db with emission_data := db.emission_data ++ [new] } new ids now) =
          none := hins
      exact Option.noConfusion hins2
    | some db2 =>
      refine ⟨db2, rfl, ?_⟩
      have hsome : (db.sensors.find?
          (fun x => x.sensor_id == new.sensor_id)).isSome = true := by
        rw [List.find?_isSome]
        rw [List.any_eq_true] at hknown
        obtain ⟨s, hsmem, hps⟩ := hknown
        exact ⟨s, hsmem, hps⟩
      obtain ⟨s, hsfind⟩ := Option.isSome_iff_exists.mp hsome
      obtain ⟨hguard, hcase⟩ :=
        insert_emission_cases db new ids now db2 s hsfind hins
      rcases hcase with ⟨hco2, rfl⟩ | ⟨hco2, rfl⟩
      · exact ⟨new, List.mem_append_right _ (List.mem_singleton.mpr rfl),
          rfl, rfl, rfl⟩
      · refine ⟨{ new with alert_id := some ids.alert_id }, ?_, rfl, rfl, rfl⟩
        refine List.mem_map.mpr
          ⟨new, List.mem_append_right _ (List.mem_singleton.mpr rfl), ?_⟩
        simp

/-! ## The dashboard (C8) -/

/-- The fold of `latestEmission` returns a member (or the seed) of maximal
timestamp. -/
theorem latestEmission_aux (l : List EmissionData) :
    ∀ (acc : Option EmissionData) (e : EmissionData),
      l.foldl (fun acc e =>
        match acc with
        | none => some e
        | some b => if b.timestamp < e.timestamp then some e else some b)
        acc = some e →
      (e ∈ l ∨ acc = some e) ∧ (∀ x ∈ l, x.timestamp ≤ e.timestamp) ∧
      (∀ b, acc = some b → b.timestamp ≤ e.timestamp) := by
  induction l with
  | nil =>
    intro acc e h
    simp only [List.foldl_nil] at h
    refine ⟨Or.inr h, by simp, ?_⟩
    intro b hb
    rw [hb] at h
    cases Option.some.inj h
    exact le_refl _
  | cons x xs ih =>
    intro acc e h
    rw [List.foldl_cons] at h
    obtain ⟨h1, h2, h3⟩ := ih _ e h
    cases acc with
    | none =>
      have hx : x.timestamp ≤ e.timestamp := h3 x rfl
      refine ⟨?_, ?_, ?_⟩
      · rcases h1 with h1 | h1
        · exact Or.inl (List.mem_cons_of_mem _ h1)
        · refine Or.inl ?_
          have hxe : x = e := Option.some.inj h1
          rw [← hxe]
          exact List.mem_cons_self x xs
      · intro y hy
        rcases List.mem_cons.mp hy with rfl | hy
        · exact hx
        · exact h2 y hy
      · intro b hb
        exact Option.noConfusion hb
    | some b =>
      by_cases hbx : b.timestamp < x.timestamp
      · have h1x : e ∈ xs ∨
            (if b.timestamp < x.timestamp then some x else some b) = some e := h1
        have h3x : ∀ bb, (if b.timestamp < x.timestamp then some x else some b) =
            some bb → bb.timestamp ≤ e.timestamp := h3
        rw [if_pos hbx] at h1x
        have hx : x.timestamp ≤ e.timestamp := by
          apply h3x x
          rw [if_pos hbx]
        refine ⟨?_, ?_, ?_⟩
        · rcases h1x with h1x | h1x
          · exact Or.inl (List.mem_cons_of_mem _ h1x)
          · refine Or.inl ?_
            have hxe : x = e := Option.some.inj h1x
            rw [← hxe]
            exact List.mem_cons_self x xs
        · intro y hy
          rcases List.mem_cons.mp hy with rfl | hy
          · exact hx
          · exact h2 y hy
        · intro bb hbb
          cases Option.some.inj hbb
          exact le_trans (le_of_lt hbx) hx
      · have h1x : e ∈ xs ∨
            (if b.timestamp < x.timestamp then some x else some b) = some e := h1
        have h3x : ∀ bb, (if b.timestamp < x.timestamp then some x else some b) =
            some bb → bb.timestamp ≤ e.timestamp := h3
        rw [if_neg hbx] at h1x
        have hb : b.timestamp ≤ e.timestamp := by
          apply h3x b
          rw [if_neg hbx]
        refine ⟨?_, ?_, ?_⟩
        · rcases h1x with h1x | h1x
          · exact Or.inl (List.mem_cons_of_mem _ h1x)
          · exact Or.inr h1x
        · intro y hy
          rcases List.mem_cons.mp hy with rfl | hy
          · exact le_trans (not_lt.mp hbx) hb
          · exact h2 y hy
        · intro bb hbb
          cases Option.some.inj hbb
          exact hb

/-- C8: the dashboard's `current_emission` is the value of a reading of
maximal timestamp among the principal's readings; and for a reachable
state and a principal owning no sensors, all four returned stats are 0 —
the unread-alert count included, because every Alert's owner is reached
through one of its sensors. -/
theorem claim_C8_dashboard_stats :
    (∀ (db : DB) (uid : Nat), Reachable db →
      db.sensors.filter (fun s => s.user_id == uid) = [] →
      dashboard_stats db uid = (0, 0, 0, 0)) ∧
    (∀ (l : List EmissionData) (e : EmissionData), latestEmission l = some e →
      e ∈ l ∧ ∀ x ∈ l, x.timestamp ≤ e.timestamp) := by
  constructor
  · intro db uid hreach hfilter
    have inv := reachable_inv hreach
    have hsens : ∀ s ∈ db.sensors, (s.user_id == uid) = false := by
      intro s hs
      have hns := List.filter_eq_nil_iff.mp hfilter s hs
      simpa using hns
    have hue : userEmissions db uid = [] := by
      unfold userEmissions
      rw [List.filter_eq_nil_iff]
      intro e he hc
      rw [List.any_eq_true] at hc
      obtain ⟨s, hsmem, hps⟩ := hc
      rw [Bool.and_eq_true] at hps
      have hfs := hsens s hsmem
      rw [hfs] at hps
      exact Bool.false_ne_true hps.2
    have htc : totalCredits db uid = 0 := by
      unfold totalCredits
      have hnil : (db.carbon_credits.flatMap (fun c =>
          (db.credit_emission_map.filter
            (fun m => m.credit_id == c.credit_id)).flatMap (fun m =>
            (db.emission_data.filter
              (fun e => e.emission_id == m.emission_id)).flatMap (fun e =>
              (db.sensors.filter (fun s =>
                s.sensor_id == e.sensor_id && s.user_id == uid)).map
                  (fun _ => c.credit_amount))))) = [] := by
        rw [List.eq_nil_iff_forall_not_mem]
        intro x hx
        rw [List.mem_flatMap] at hx
        obtain ⟨c, hc, hx⟩ := hx
        rw [List.mem_flatMap] at hx
        obtain ⟨m, hm, hx⟩ := hx
        rw [List.mem_flatMap] at hx
        obtain ⟨e, he, hx⟩ := hx
        rw [List.mem_map] at hx
        obtain ⟨s, hsmem, _⟩ := hx
        have hsmem2 := List.mem_filter.mp hsmem
        have hp := hsmem2.2
        rw [Bool.and_eq_true] at hp
        have hfs := hsens s hsmem2.1
        rw [hfs] at hp
        exact Bool.false_ne_true hp.2
      rw [hnil]
      rfl
    have hac : db.sensors.filter
        (fun s => s.user_id == uid && s.status == "active") = [] := by
      rw [List.filter_eq_nil_iff]
      intro s hsmem hp
      rw [Bool.and_eq_true] at hp
      have hfs := hsens s hsmem
      rw [hfs] at hp
      exact Bool.false_ne_true hp.1
    have hua : db.alerts.filter
        (fun a => a.user_id == uid && a.is_read == false) = [] := by
      rw [List.filter_eq_nil_iff]
      intro a ha hp
      rw [Bool.and_eq_true] at hp
      obtain ⟨s, hsmem, hseq⟩ := inv.alert_owner a ha
      have huid : a.user_id = uid := by simpa using hp.1
      have hfs := hsens s hsmem
      rw [hseq, huid] at hfs
      simp at hfs
    simp only [dashboard_stats]
    rw [hue, htc, hac, hua]
    rfl
  · intro l e h
    unfold latestEmission at h
    obtain ⟨h1, h2, h3⟩ := latestEmission_aux l none e h
    rcases h1 with h1 | h1
    · exact ⟨h1, h2⟩
    · exact absurd h1 (by simp)

/-! ## Concrete sample states for the witnesses -/

/-- The first sample reading of `carbon_schema.sql` (850 kg, compliant). -/
def readingEM1 : EmissionData :=
  { emission_id := "EM_1", timestamp := 1, co2_value := 850,
    pm25_value := none, temperature := none, humidity := none,
    sensor_id := "SENSOR_001", alert_id := none }

/-- A breaching sample reading (1150 kg, above the 1000 threshold). -/
def readingHot : EmissionData :=
  { emission_id := "EM_2", timestamp := 2, co2_value := 1150,
    pm25_value := none, temperature := none, humidity := none,
    sensor_id := "SENSOR_001", alert_id := none }

def idsA : FreshIds := { credit_id := "CC_1", alert_id := "AL_1" }

def idsB : FreshIds := { credit_id := "CC_2", alert_id := "AL_2" }

/-- The initial state: the demo sensor, all derived tables empty. -/
def dbInit : DB :=
  { sensors := [demoSensorRow], emission_data := [], carbon_credits := [],
    credit_emission_map := [], alerts := [] }

/-- The Credit row the trigger derives from `readingEM1`. -/
def creditRowA : CarbonCredit :=
  { credit_id := "CC_1", calculated_date := 1, emission_value := 850,
    allowed_limit := 1000, credit_amount := (1000 - 850) / 1000,
    status := credit_status ((1000 - 850) / 1000) }

/-- The Link row the trigger derives from `readingEM1`. -/
def linkRowA : CreditEmissionMap :=
  { map_id := "MAP_CC_1", credit_id := "CC_1", emission_id := "EM_1",
    weight_factor := 1, included_flag := true }

/-- The state after ingesting `readingEM1` into `dbInit`. -/
def dbStep1 : DB :=
  { sensors := [demoSensorRow], emission_data := [readingEM1],
    carbon_credits := [creditRowA], credit_emission_map := [linkRowA],
    alerts := [] }

/-- A state holding the breaching reading (used to exercise the classifier
directly). -/
def dbHot : DB :=
  { sensors := [demoSensorRow], emission_data := [readingHot],
    carbon_credits := [], credit_emission_map := [], alerts := [] }

theorem insert_dbStep1 :
    insert_emission dbInit readingEM1 idsA 1 = some dbStep1 := rfl

theorem dbStep1_reachable : Reachable dbStep1 :=
  Reachable.step readingEM1 idsA 1 (Reachable.init [demoSensorRow])
    rfl rfl rfl rfl insert_dbStep1

/-- A valid `POST /api/emissions` payload for the demo sensor. -/
def goodBody : EmissionBody :=
  { sensor_id := some "SENSOR_001", co2_value := some 850,
    pm25_value := none, temperature := none, humidity := none }

def verifyW : String → Option UserClaims :=
  fun t =>
    if t = "tok" then
      some { user_id := 1, email := "demo@industry.com", role := "admin" }
    else none

def handlerW : UserClaims → Nat := fun _ => 200

/-! ## Witnesses -/

theorem claim_C1_witness :
    ∃ db2, calculate_carbon_credits dbStep1 "EM_1" 1000 "CC_9" 7 =
        some (db2, (1000 - readingEM1.co2_value) / 1000,
              credit_status ((1000 - readingEM1.co2_value) / 1000)) ∧
      (credit_status ((1000 - readingEM1.co2_value) / 1000) =
          CreditStatus.earned ↔ 0 < (1000 - readingEM1.co2_value) / 1000) ∧
      (credit_status ((1000 - readingEM1.co2_value) / 1000) =
          CreditStatus.deficit ↔ (1000 - readingEM1.co2_value) / 1000 < 0) ∧
      (credit_status ((1000 - readingEM1.co2_value) / 1000) =
          CreditStatus.neutral ↔ (1000 - readingEM1.co2_value) / 1000 = 0) ∧
      db2.carbon_credits = dbStep1.carbon_credits ++
        [{ credit_id := "CC_9", calculated_date := 7,
           emission_value := readingEM1.co2_value, allowed_limit := 1000,
           credit_amount := (1000 - readingEM1.co2_value) / 1000,
           status := credit_status ((1000 - readingEM1.co2_value) / 1000) }] :=
  claim_C1_credit_calculation dbStep1 "EM_1" 1000 "CC_9" 7 readingEM1 rfl

theorem claim_C2_witness :
    ∃ a : Alert,
      (check_emission_threshold dbHot "EM_2" 1000 "AL_9").alerts =
        dbHot.alerts ++ [a] ∧
      ((1000 : Rat) * 1.2 < readingHot.co2_value →
        a.severity = Severity.critical) ∧
      ((1000 : Rat) * 1.1 < readingHot.co2_value →
        readingHot.co2_value ≤ 1000 * 1.2 → a.severity = Severity.high) ∧
      (readingHot.co2_value ≤ (1000 : Rat) * 1.1 →
        a.severity = Severity.medium) :=
  (claim_C2_alert_classification dbHot "EM_2" 1000 "AL_9" readingHot
    demoSensorRow rfl rfl).2 (by norm_num [readingHot])

theorem claim_C3_witness :
    (∃ c, dbStep1.carbon_credits = dbInit.carbon_credits ++ [c]) ∧
    dbStep1.alerts = dbInit.alerts :=
  (claim_C3_trigger_derivation dbInit readingEM1 idsA 1 dbStep1 demoSensorRow
    rfl insert_dbStep1).1 (by norm_num [readingEM1])

theorem claim_C4_witness :
    dbStep1.credit_emission_map.countP
      (fun m => m.credit_id == creditRowA.credit_id) = 1 ∧
    (linkRowA.weight_factor = 1 ∧ linkRowA.included_flag = true ∧
      ∃ e ∈ dbStep1.emission_data, e.emission_id = linkRowA.emission_id) :=
  ⟨(claim_C4_link_invariant dbStep1_reachable creditRowA
      (List.mem_singleton.mpr rfl)).1,
   (claim_C4_link_invariant dbStep1_reachable creditRowA
      (List.mem_singleton.mpr rfl)).2 linkRowA
      (List.mem_singleton.mpr rfl) rfl⟩

theorem claim_C5_witness :
    insert_emission dbStep1 readingEM1 idsB 9 = none ∧
    dbStep1.credit_emission_map.countP
      (fun m => m.emission_id == readingEM1.emission_id) ≤ 1 ∧
    dbStep1.alerts.countP
      (fun a => alertRefOf dbStep1 readingEM1.emission_id ==
        some a.alert_id) ≤ 1 :=
  claim_C5_idempotence dbStep1_reachable readingEM1 idsB 9 rfl

theorem claim_C6_witness :
    (check_emission_threshold dbHot "EM_2" 1000 "AL_9").emission_data =
      dbHot.emission_data.map (fun ed =>
        if ed.emission_id == "EM_2" then { ed with alert_id := some "AL_9" }
        else ed) ∧
    (check_emission_threshold dbHot "EM_2" 1000 "AL_9").sensors =
      dbHot.sensors ∧
    (check_emission_threshold dbHot "EM_2" 1000 "AL_9").carbon_credits =
      dbHot.carbon_credits ∧
    (check_emission_threshold dbHot "EM_2" 1000 "AL_9").credit_emission_map =
      dbHot.credit_emission_map :=
  (claim_C6_alert_reference_frame dbHot "EM_2" 1000 "AL_9" readingHot
    demoSensorRow rfl rfl).2 (by norm_num [readingHot])

theorem claim_C7_witness :
    ∃ db2, post_emissions dbInit goodBody idsA "EM_7" 4 = (201, db2) ∧
      ∃ e2 ∈ db2.emission_data, e2.emission_id = "EM_7" ∧
        e2.co2_value = 850 ∧ e2.sensor_id = "SENSOR_001" :=
  (claim_C7_ingestion_amended dbInit goodBody idsA "EM_7" 4).2.2
    "SENSOR_001" 850 rfl rfl rfl rfl

theorem claim_C8_witness : dashboard_stats dbStep1 42 = (0, 0, 0, 0) :=
  claim_C8_dashboard_stats.1 dbStep1 42 dbStep1_reachable rfl

theorem claim_C9_witness :
    authenticateToken verifyW none handlerW = 401 ∧
    authenticateToken verifyW (some "Bearer bad") handlerW = 403 ∧
    authenticateToken verifyW (some "Bearer tok") handlerW = 200 :=
  ⟨(claim_C9_authentication verifyW none handlerW).1 rfl,
   (claim_C9_authentication verifyW (some "Bearer bad") handlerW).2.1 "bad"
     rfl (by decide) rfl,
   (claim_C9_authentication verifyW (some "Bearer tok") handlerW).2.2.1 "tok"
     { user_id := 1, email := "demo@industry.com", role := "admin" }
     rfl (by decide) rfl⟩

theorem claim_C10_witness :
    0 ≤ creditRowA.credit_amount ∧
    (creditRowA.status = CreditStatus.earned ∨
      creditRowA.status = CreditStatus.neutral) :=
  claim_C10_no_deficit dbStep1_reachable creditRowA
    (List.mem_singleton.mpr rfl)
